import Mathlib

/-!
Verification development for the Glow ONNX importer
(src/lib/Importer/ONNX.cpp). The importer is embedded shallowly:
protobuf messages become structures, the mutable loader state becomes an
explicit record threaded through the functions, fatal assertions and
process-terminating checks become values of an error type, and tensor
payloads are modelled with exact rationals (the importer only copies
float values, it never computes with them, so the copy semantics is
faithful). Collaborator code that lives outside the importer source file
(the glow Tensor and Graph classes, the CommonOperatorLoader parent
class) is modelled from the specification and marked as such in the
doc comments.
-/

namespace Glow

/-! ## Generic association-list maps

The importer uses std::unordered_map with unique keys; an association
list with insert-or-replace update models it. -/

/-- Lookup in an association list; first (and only) matching key wins. -/
def findAssoc {α : Type} : List (String × α) → String → Option α
  | [], _ => none
  | p :: rest, k => if p.1 = k then some p.2 else findAssoc rest k

/-- Insert-or-replace update of an association list, keeping keys unique. -/
def updAssoc {α : Type} : List (String × α) → String → α → List (String × α)
  | [], k, v => [(k, v)]
  | p :: rest, k, v => if p.1 = k then (k, v) :: rest else p :: updAssoc rest k v

/-- Models unordered_map::count for a unique-key map. -/
def hasKey {α : Type} (l : List (String × α)) (k : String) : Bool :=
  (findAssoc l k).isSome

/-! ## Shape and buffer arithmetic -/

/-- Product of a dimension list: the element count of a buffer, as in
Tensor::size(). -/
def prodDims (dims : List Nat) : Nat := dims.foldl (fun a b => a * b) 1

/-- Apply a permutation to a dimension list: output dimension i is input
dimension perm i, as in the shuffle argument of Tensor::transpose. -/
def permuteL (perm l : List Nat) : List Nat := perm.map (fun i => l.getD i 0)

/-- Inverse of a permutation given as a list. -/
def invPerm (perm : List Nat) : List Nat :=
  (List.range perm.length).map (fun k => perm.indexOf k)

/-- Row-major multi-index of flat position i in a buffer of the given
dimensions. -/
def coordsOf : List Nat → Nat → List Nat
  | [], _ => []
  | d :: rest, i => (i / prodDims rest) % d :: coordsOf rest (i % prodDims rest)

/-- Row-major flat position of a multi-index. -/
def flattenIdx : List Nat → List Nat → Nat
  | _ :: rest, c :: cs => c * prodDims rest + flattenIdx rest cs
  | _, _ => 0

/-- Write the values into the front of the buffer, position by position:
the model of the copy loop TH.raw(i++) = f over a freshly allocated
buffer. Values beyond the end of the buffer have no representable
destination and are dropped. -/
def writeSeq {α : Type} : List α → List α → List α
  | [], _ => []
  | b :: bs, [] => b :: bs
  | _ :: bs, v :: vs => v :: writeSeq bs vs

/-- Modelled from the spec: Tensor::transpose of the external tensor
collaborator moves element data so that the output at multi-index c
is the input at the permuted multi-index. -/
def transposeData {α : Type} (z : α) (l : List α) (dims perm : List Nat) : List α :=
  let newDims := permuteL perm dims
  (List.range (prodDims newDims)).map
    (fun i => l.getD (flattenIdx dims (permuteL (invPerm perm) (coordsOf newDims i))) z)

/-! ## Tensors -/

/-- The two element kinds the importer supports. -/
inductive ElemKind where
  | FloatTy
  | IndexTy
deriving DecidableEq

/-- Payload of an in-memory tensor buffer; float elements are modelled as
exact rationals (the importer copies values, it never computes with
them). -/
inductive TensorData where
  | floats (l : List ℚ)
  | indices (l : List Int)
deriving DecidableEq

/-- Modelled from the spec: the external Tensor collaborator, reduced to
shape, element kind and element data. -/
structure Tensor where
  kind : ElemKind
  dims : List Nat
  data : TensorData
deriving DecidableEq

/-- Transpose a tensor by a dimension permutation (Tensor::transpose of
the external collaborator, modelled from the spec). -/
def transposeTensor (t : Tensor) (perm : List Nat) : Tensor :=
  match t.data with
  | .floats l => ⟨t.kind, permuteL perm t.dims, .floats (transposeData 0 l t.dims perm)⟩
  | .indices l => ⟨t.kind, permuteL perm t.dims, .indices (transposeData 0 l t.dims perm)⟩

/-- Float payload of a tensor, for the copyFrom capability of the
external Tensor collaborator (modelled from the spec). -/
def floatsOf (t : Tensor) : List ℚ :=
  match t.data with
  | .floats l => l
  | .indices _ => []

/-! ## The wire-format messages -/

/-- onnx::TensorProto restricted to the fields the importer reads.
data_type carries the numeric value of the onnx element-type enum
(FLOAT is 1, INT64 is 7). raw_data is the optional opaque byte blob. -/
structure TensorProto where
  name : String
  dims : List Nat
  data_type : Nat
  float_data : List ℚ
  int64_data : List Int
  raw_data : Option (List Nat)
deriving DecidableEq

/-- The tagged payload of an onnx::AttributeProto: exactly one of the
typed fields is meaningful, selected by the type tag. -/
inductive AttrValue where
  | int (i : Int)
  | float (f : ℚ)
  | str (s : String)
  | ints (l : List Nat)
  | tensor (t : TensorProto)
deriving DecidableEq

/-- onnx::AttributeProto: a named tagged value. -/
structure AttributeProto where
  name : String
  value : AttrValue
deriving DecidableEq

/-- The random-access attribute map built per node. -/
abbrev ArgumentDictionaryTy := List (String × AttributeProto)

/-- onnx::NodeProto restricted to the fields the importer reads. attrs
stands for the repeated attribute field of the message. -/
structure NodeProto where
  op_type : String
  name : String
  input : List String
  output : List String
  attrs : List AttributeProto

/-- onnx::ValueInfoProto reduced to name, element kind and shape. -/
structure ValueInfoProto where
  name : String
  elem_type : Nat
  dims : List Nat

/-- onnx::GraphProto restricted to the fields the importer reads; the
output list is reduced to the declared output names. -/
structure GraphProto where
  node : List NodeProto
  input : List ValueInfoProto
  initializer : List TensorProto
  output : List String

/-- onnx::OperatorSetIdProto: an optional domain and a version. -/
structure OpsetImportProto where
  domain : Option String
  version : Int

/-- onnx::ModelProto restricted to the fields the importer reads. -/
structure ModelProto where
  ir_version : Int
  opset_import : List OpsetImportProto
  graph : GraphProto

/-! ## Failure taxonomy

Every GLOW_ASSERT / assert in the importer terminates the process; here
each becomes an error value that aborts the load. -/

inductive LoadError where
  | VersionError
  | UnsupportedTensorKind
  | UnsupportedAttributeShape (msg : String)
  | UnsupportedOperator (opType : String) (opName : String)
  | ShapeInvariantViolation (msg : String)
  | NullAttribute (attr : String)
  | TypeMismatch (attr : String)
  | UnknownName (nm : String)
  | ProtoIndexOutOfRange
deriving DecidableEq

/-! ## Attribute dictionary and typed accessors -/

/-- loadArgumentMap: translates the attribute list of a node into a
random-access map; a duplicate name overwrites the earlier entry. -/
def loadArgumentMap (attrs : List AttributeProto) : ArgumentDictionaryTy :=
  attrs.foldl (fun d a => updAssoc d a.name a) []

/-- Modelled from the spec: the loadInt typed accessor of the shared
protobuf-loader header (outside this source file). The argument is the
result of a dictionary lookup; a missing attribute is the null-pointer
dereference of operator[], a wrong tag is a type mismatch. -/
def loadInt (nm : String) : Option AttributeProto → Except LoadError Int
  | none => .error (.NullAttribute nm)
  | some a =>
    match a.value with
    | .int i => .ok i
    | _ => .error (.TypeMismatch nm)

/-- Modelled from the spec: the loadFloat typed accessor of the shared
protobuf-loader header. -/
def loadFloat (nm : String) : Option AttributeProto → Except LoadError ℚ
  | none => .error (.NullAttribute nm)
  | some a =>
    match a.value with
    | .float f => .ok f
    | _ => .error (.TypeMismatch nm)

/-- Modelled from the spec: the loadStr typed accessor of the shared
protobuf-loader header. -/
def loadStr (nm : String) : Option AttributeProto → Except LoadError String
  | none => .error (.NullAttribute nm)
  | some a =>
    match a.value with
    | .str s => .ok s
    | _ => .error (.TypeMismatch nm)

/-- Modelled from the spec: the getShape accessor of the shared
protobuf-loader header, reading an int-array attribute as a shape. -/
def getShape (nm : String) : Option AttributeProto → Except LoadError (List Nat)
  | none => .error (.NullAttribute nm)
  | some a =>
    match a.value with
    | .ints l => .ok l
    | _ => .error (.TypeMismatch nm)

/-- Modelled from the spec: getConstantArrayHead of the shared
protobuf-loader header returns the first element of an int-array
attribute. -/
def getConstantArrayHead (nm : String) (a : Option AttributeProto) : Except LoadError Nat :=
  match getShape nm a with
  | .ok (x :: _) => .ok x
  | .ok [] => .error (.UnsupportedAttributeShape nm)
  | .error e => .error e

/-! ## getBroadcast, setVersion, getPads, loadTensor -/

/-- ONNXModelLoader::getBroadcast: for opset version above 6 broadcasting
is implicit; otherwise it requires an explicit broadcast attribute whose
integer value is 1. -/
def getBroadcast (opsetVersion : Int) (dict : ArgumentDictionaryTy) : Except LoadError Bool :=
  if 6 < opsetVersion then .ok true
  else if hasKey dict "broadcast" then
    match loadInt "broadcast" (findAssoc dict "broadcast") with
    | .ok i => .ok (i == 1)
    | .error e => .error e
  else .ok false

/-- An opset import entry with absent or empty domain. -/
def unnamespaced (imp : OpsetImportProto) : Bool :=
  match imp.domain with
  | none => true
  | some d => d == ""

/-- The loop of ONNXModelLoader::setVersion: the first unnamespaced
opset entry sets the version; if none exists the version stays 0. -/
def findOpsetVersion : List OpsetImportProto → Int
  | [] => 0
  | imp :: rest => if unnamespaced imp then imp.version else findOpsetVersion rest

/-- ONNXModelLoader::setVersion: the GLOW_ASSERT on ir_version below 3
and the GLOW_ASSERT on an unresolved opset version become VersionError. -/
def setVersion (MP : ModelProto) : Except LoadError Int :=
  if MP.ir_version < 3 then .error .VersionError
  else if 0 < findOpsetVersion MP.opset_import then .ok (findOpsetVersion MP.opset_import)
  else .error .VersionError

/-- Modelled from the spec: reinterpreting the opaque byte blob of a
tensor record as a row-major array of exactly product(dims) elements of
the element kind of the record. The bit-level IEEE-754 decoding of the
bytes is memory-layout detail outside this shape-level embedding; the
decoded payload is represented by its element count. -/
def reinterpretRawFloats (blob : List Nat) (n : Nat) : List ℚ :=
  (List.range n).map (fun i => ((blob.getD i 0 : Nat) : ℚ))

/-- Modelled from the spec: the int64 counterpart of the raw-blob
reinterpretation. -/
def reinterpretRawInts (blob : List Nat) (n : Nat) : List Int :=
  (List.range n).map (fun i => ((blob.getD i 0 : Nat) : Int))

/-- loadTensor: materializes a serialized tensor record. float32 and
int64 each try the explicit element array first (copied element by
element into a freshly allocated buffer shaped per dims), then the raw
byte blob; anything else is the unsupported-format assertion. -/
def loadTensor (t : TensorProto) : Except LoadError Tensor :=
  if t.data_type = 1 then
    let buf := List.replicate (prodDims t.dims) (0 : ℚ)
    if 0 < t.float_data.length then
      .ok ⟨.FloatTy, t.dims, .floats (writeSeq buf t.float_data)⟩
    else
      match t.raw_data with
      | some blob => .ok ⟨.FloatTy, t.dims, .floats (reinterpretRawFloats blob (prodDims t.dims))⟩
      | none => .error .UnsupportedTensorKind
  else if t.data_type = 7 then
    let buf := List.replicate (prodDims t.dims) (0 : Int)
    if 0 < t.int64_data.length then
      .ok ⟨.IndexTy, t.dims, .indices (writeSeq buf t.int64_data)⟩
    else
      match t.raw_data with
      | some blob => .ok ⟨.IndexTy, t.dims, .indices (reinterpretRawInts blob (prodDims t.dims))⟩
      | none => .error .UnsupportedTensorKind
  else .error .UnsupportedTensorKind

/-- loadShape: creates a buffer of the declared element kind and shape
with no data, for declared graph inputs. -/
def loadShape (vi : ValueInfoProto) : Except LoadError Tensor :=
  if vi.elem_type = 1 then .ok ⟨.FloatTy, vi.dims, .floats (List.replicate (prodDims vi.dims) 0)⟩
  else if vi.elem_type = 7 then
    .ok ⟨.IndexTy, vi.dims, .indices (List.replicate (prodDims vi.dims) 0)⟩
  else .error .UnsupportedTensorKind

/-- getPads: an explicit pads attribute is used verbatim; otherwise an
auto_pad attribute must be the string VALID (all-zero padding) and any
other string is the unsupported-auto_pad assertion; with neither
attribute the padding defaults to all-zero. -/
def getPads (dict : ArgumentDictionaryTy) : Except LoadError (List Nat) :=
  if hasKey dict "pads" then getShape "pads" (findAssoc dict "pads")
  else if hasKey dict "auto_pad" then
    match loadStr "auto_pad" (findAssoc dict "auto_pad") with
    | .ok padStr =>
      if padStr = "VALID" then .ok [0, 0, 0, 0]
      else .error (.UnsupportedAttributeShape "only auto_pad==VALID is supported")
    | .error e => .error e
  else .ok [0, 0, 0, 0]

/-! ## The internal IR, at shape level

IR values flow between lowering steps as opaque handles plus their
declared shape; here a handle is a tree of the node kinds the importer
creates, and the shape of a handle is computed from the tree. The
create-op capabilities of the external IR-builder collaborator are
modelled from the spec. -/

/-- The layout shuffle from channel-first to channel-last: position i of
the output takes dimension NCHW2NHWC i of the input. -/
def NCHW2NHWC : List Nat := [0, 2, 3, 1]

/-- The inverse layout shuffle, channel-last back to channel-first. -/
def NHWC2NCHW : List Nat := [0, 3, 1, 2]

/-- Modelled from the spec: the standard convolution/pooling output-size
formula used by calculateConvPoolOutputDims, on a channel-last input of
spatial size sh by sw; the pads list is ordered top, left, bottom,
right. -/
def calculateConvPoolOutputDims (sh sw kernel stride : Nat) (pads : List Nat) : Nat × Nat :=
  ((sh + pads.getD 0 0 + pads.getD 2 0 - kernel) / stride + 1,
   (sw + pads.getD 1 0 + pads.getD 3 0 - kernel) / stride + 1)

/-- Modelled from the spec: output shape of a pooling node on a
channel-last input. -/
def poolShape (idims : List Nat) (kernel stride : Nat) (pads : List Nat) : List Nat :=
  [idims.getD 0 0,
   (calculateConvPoolOutputDims (idims.getD 1 0) (idims.getD 2 0) kernel stride pads).1,
   (calculateConvPoolOutputDims (idims.getD 1 0) (idims.getD 2 0) kernel stride pads).2,
   idims.getD 3 0]

/-- Modelled from the spec: output shape of a squeeze node, removing the
dimensions at the listed axis positions. -/
def squeezeDims (dims : List Nat) (axes : List Nat) : List Nat :=
  (dims.enum.filter (fun p => !(axes.contains p.1))).map (fun p => p.2)

/-- Modelled from the spec: output shape of an expand-dims node,
inserting size-1 dimensions at the listed axis positions of the
result. -/
def expandDimsShape (dims : List Nat) (axes : List Nat) (j n : Nat) : List Nat :=
  if j < n then
    if axes.contains j then 1 :: expandDimsShape dims axes (j + 1) n
    else dims.headD 1 :: expandDimsShape dims.tail axes (j + 1) n
  else []
termination_by n - j

/-- Modelled from the spec: output shape of a concat node, the shape of
the first input with the axis dimension replaced by the sum over all
inputs. -/
def concatShape (ds : List (List Nat)) (axis : Nat) : List Nat :=
  match ds with
  | [] => []
  | d0 :: _ =>
    (List.range d0.length).map
      (fun j =>
        if j = axis then (ds.map (fun d => d.getD j 0)).foldl (fun a b => a + b) 0
        else d0.getD j 0)

/-- An IR value handle: the tree of IR nodes the importer created to
produce it. Nodes that receive their output type from the importer
(conv, concat, broadcast) store the dimension list they were created
with. -/
inductive IRNode where
  | variableNode (nm : String) (t : Tensor)
  | transpose (input : IRNode) (perm : List Nat)
  | conv (input filter bias : IRNode) (outDims : List Nat) (kernel stride : Nat)
      (pads : List Nat) (group : Nat)
  | poolMax (input : IRNode) (kernel stride : Nat) (pads : List Nat)
  | poolAvg (input : IRNode) (kernel stride : Nat) (pads : List Nat)
  | squeeze (input : IRNode) (axes : List Nat)
  | expandDims (input : IRNode) (axes : List Nat)
  | batchNorm (input : IRNode) (channel : Nat) (epsilon : ℚ) (scale bias mean variance : Tensor)
  | concat (inputs : List IRNode) (axis : Int) (outDims : List Nat)
  | matMul (a b : IRNode)
  | broadcast (input : IRNode) (outDims : List Nat) (axis : Int)
  | add (a b : IRNode)
  | save (nm : String) (input : IRNode)

/-- The declared shape of an IR value handle. -/
def IRNode.dims : IRNode → List Nat
  | .variableNode _ t => t.dims
  | .transpose i perm => permuteL perm i.dims
  | .conv _ _ _ outDims _ _ _ _ => outDims
  | .poolMax i k s p => poolShape i.dims k s p
  | .poolAvg i k s p => poolShape i.dims k s p
  | .squeeze i axes => squeezeDims i.dims axes
  | .expandDims i axes => expandDimsShape i.dims axes 0 (i.dims.length + axes.length)
  | .batchNorm i _ _ _ _ _ _ => i.dims
  | .concat _ _ outDims => outDims
  | .matMul a b => [a.dims.headD 0, b.dims.getD 1 0]
  | .broadcast _ outDims _ => outDims
  | .add a _ => a.dims
  | .save _ i => i.dims

/-! ## Loader state -/

/-- The mutable state of the loader object: the resolved opset version,
the name-keyed tensor table, and the map from value names to the IR
values already bound for them. -/
structure LoaderState where
  opsetVersion : Int
  tensors : List (String × Tensor)
  nodeByName : List (String × IRNode)

/-- Modelled from the spec: getTensorByName of the parent class resolves
a name in the tensor table and fails when it is absent. -/
def getTensorByName (st : LoaderState) (nm : String) : Except LoadError Tensor :=
  match findAssoc st.tensors nm with
  | some t => .ok t
  | none => .error (.UnknownName nm)

/-- Modelled from the spec: getOrCreateVariableByName of the parent
class returns the IR value already bound for the name, or creates a
fresh IR parameter node from the tensor of that name in the table, and
fails for a name known to neither. -/
def getOrCreateVariableByName (st : LoaderState) (nm : String) :
    Except LoadError (IRNode × LoaderState) :=
  match findAssoc st.nodeByName nm with
  | some nd => .ok (nd, st)
  | none =>
    match findAssoc st.tensors nm with
    | some t =>
      .ok (IRNode.variableNode nm t,
        ⟨st.opsetVersion, st.tensors, updAssoc st.nodeByName nm (IRNode.variableNode nm t)⟩)
    | none => .error (.UnknownName nm)

/-- Resolve a list of input names in order, threading the state. -/
def getInputs (st : LoaderState) : List String → Except LoadError (List IRNode × LoaderState)
  | [] => .ok ([], st)
  | nm :: rest =>
    match getOrCreateVariableByName st nm with
    | .ok p =>
      match getInputs p.2 rest with
      | .ok q => .ok (p.1 :: q.1, q.2)
      | .error e => .error e
    | .error e => .error e

/-- Modelled from the spec: addNodeAsOutput of the parent class binds
every declared output name of the node to the produced IR value. -/
def addNodeAsOutput (op : NodeProto) (nd : IRNode) (st : LoaderState) : LoaderState :=
  ⟨st.opsetVersion, st.tensors, op.output.foldl (fun m o => updAssoc m o nd) st.nodeByName⟩

/-- Modelled from the spec: loadOperatorName of the parent class, the
instance name of the node or, when empty, its first output name. -/
def loadOperatorName (op : NodeProto) : String :=
  if op.name = "" then op.output.headD "" else op.name

/-- Read an entry of the repeated input field; protobuf indexed access
out of range terminates the process. -/
def inputAt (op : NodeProto) (i : Nat) : Except LoadError String :=
  match op.input.get? i with
  | some s => .ok s
  | none => .error .ProtoIndexOutOfRange

/-! ## The per-operator lowering engine -/

/-- The operator type names the ONNX-specific dispatch of
ONNXModelLoader::loadOperator recognizes. -/
def supportedONNXOps : List String :=
  ["Constant", "Conv", "MaxPool", "AveragePool", "GlobalAveragePool", "Squeeze",
   "Unsqueeze", "Dropout", "BatchNormalization", "Concat", "Gemm", "Transpose"]

/-- The ONNX-specific dispatch of ONNXModelLoader::loadOperator, after
the common-operator attempt. Returns true and the new state for a
recognized and translated node, false for an unrecognized operator type,
and an error for a failed assertion. -/
def loadOperatorONNX (st : LoaderState) (op : NodeProto) :
    Except LoadError (Bool × LoaderState) :=
  let dict := loadArgumentMap op.attrs
  let typeName := op.op_type
  if typeName = "Constant" then
    match op.output with
    | [] => .error .ProtoIndexOutOfRange
    | nm :: _ =>
      if hasKey st.tensors nm then .ok (true, st)
      else
        match findAssoc dict "value" with
        | none => .error (.NullAttribute "value")
        | some a =>
          match a.value with
          | .tensor tp =>
            match loadTensor tp with
            | .ok T => .ok (true, ⟨st.opsetVersion, updAssoc st.tensors nm T, st.nodeByName⟩)
            | .error e => .error e
          | _ => .error (.UnsupportedAttributeShape "Only Tensor type constants are supported")
  else if typeName = "Conv" then
    (do
      let stride ← if hasKey dict "strides" then
          getConstantArrayHead "strides" (findAssoc dict "strides")
        else pure 1
      let group ← if hasKey dict "group" then
          (do
            let g ← loadInt "group" (findAssoc dict "group")
            pure g.toNat)
        else pure 1
      let pads ← getPads dict
      let i0 ← inputAt op 0
      let r1 ← getOrCreateVariableByName st i0
      let i1 ← inputAt op 1
      let w ← getTensorByName r1.2 i1
      let wtag := transposeTensor w NCHW2NHWC
      let depth := wtag.dims.headD 0
      let filter := IRNode.variableNode "conv.filter" wtag
      let kernel ← if hasKey dict "kernel_shape" then
          getConstantArrayHead "kernel_shape" (findAssoc dict "kernel_shape")
        else if wtag.dims.getD 1 0 = wtag.dims.getD 2 0 then pure (wtag.dims.getD 1 0)
        else throw (LoadError.ShapeInvariantViolation "Only square kernels are supported")
      let biasT ← if 2 < op.input.length then
          (do
            let bname ← inputAt op 2
            if hasKey r1.2.tensors bname then
              (do
                let b ← getTensorByName r1.2 bname
                pure (Tensor.mk ElemKind.FloatTy [depth] (TensorData.floats (floatsOf b))))
            else pure (Tensor.mk ElemKind.FloatTy [depth]
              (TensorData.floats (List.replicate depth 0))))
        else pure (Tensor.mk ElemKind.FloatTy [depth]
          (TensorData.floats (List.replicate depth 0)))
      let bias := IRNode.variableNode "conv.bias" biasT
      let tr := IRNode.transpose r1.1 NCHW2NHWC
      let idim := IRNode.dims tr
      let outSz := calculateConvPoolOutputDims (idim.getD 1 0) (idim.getD 2 0) kernel stride pads
      let outDims := [idim.getD 0 0, outSz.1, outSz.2, depth]
      let node := IRNode.conv tr filter bias outDims kernel stride pads group
      let N := IRNode.transpose node NHWC2NCHW
      pure (true, addNodeAsOutput op N r1.2))
  else if typeName = "MaxPool" ∨ typeName = "AveragePool" then
    (do
      let i0 ← inputAt op 0
      let r1 ← getOrCreateVariableByName st i0
      let stride ← if hasKey dict "strides" then
          getConstantArrayHead "strides" (findAssoc dict "strides")
        else pure 1
      let kernelAttr ← getConstantArrayHead "kernel_shape" (findAssoc dict "kernel_shape")
      let pads ← getPads dict
      let tr := IRNode.transpose r1.1 NCHW2NHWC
      let kernel := if hasKey dict "global_pooling" then (IRNode.dims r1.1).getD 3 0
        else kernelAttr
      let node := if typeName = "MaxPool" then IRNode.poolMax tr kernel stride pads
        else IRNode.poolAvg tr kernel stride pads
      let N := IRNode.transpose node NHWC2NCHW
      pure (true, addNodeAsOutput op N r1.2))
  else if typeName = "GlobalAveragePool" then
    (do
      let i0 ← inputAt op 0
      let r1 ← getOrCreateVariableByName st i0
      let stride ← if hasKey dict "strides" then
          getConstantArrayHead "strides" (findAssoc dict "strides")
        else pure 1
      if (IRNode.dims r1.1).getD 2 0 = (IRNode.dims r1.1).getD 3 0 then
        (do
          let kernel := (IRNode.dims r1.1).getD 2 0
          let pads ← getPads dict
          let tr := IRNode.transpose r1.1 NCHW2NHWC
          let node := IRNode.poolAvg tr kernel stride pads
          let N := IRNode.transpose node NHWC2NCHW
          pure (true, addNodeAsOutput op N r1.2))
      else throw (LoadError.ShapeInvariantViolation "For the image, height == weight is required"))
  else if typeName = "Squeeze" then
    (do
      let i0 ← inputAt op 0
      let r1 ← getOrCreateVariableByName st i0
      let axes ← getShape "axes" (findAssoc dict "axes")
      pure (true, addNodeAsOutput op (IRNode.squeeze r1.1 axes) r1.2))
  else if typeName = "Unsqueeze" then
    (do
      let i0 ← inputAt op 0
      let r1 ← getOrCreateVariableByName st i0
      let axes ← getShape "axes" (findAssoc dict "axes")
      pure (true, addNodeAsOutput op (IRNode.expandDims r1.1 axes) r1.2))
  else if typeName = "Dropout" then
    (do
      let i0 ← inputAt op 0
      let r1 ← getOrCreateVariableByName st i0
      pure (true, addNodeAsOutput op r1.1 r1.2))
  else if typeName = "BatchNormalization" then
    (do
      let i0 ← inputAt op 0
      let r1 ← getOrCreateVariableByName st i0
      let i1 ← inputAt op 1
      let scale ← getTensorByName r1.2 i1
      let i2 ← inputAt op 2
      let bias ← getTensorByName r1.2 i2
      let i3 ← inputAt op 3
      let mean ← getTensorByName r1.2 i3
      let i4 ← inputAt op 4
      let variance ← getTensorByName r1.2 i4
      let epsilon ← match findAssoc dict "epsilon" with
        | some a => loadFloat "epsilon" (some a)
        | none => pure ((1 : ℚ) / 100000)
      let node := IRNode.batchNorm r1.1 1 epsilon scale bias mean variance
      pure (true, addNodeAsOutput op node r1.2))
  else if typeName = "Concat" then
    (do
      let r ← getInputs st op.input
      let axis ← loadInt "axis" (findAssoc dict "axis")
      let node := IRNode.concat r.1 axis (concatShape (r.1.map IRNode.dims) axis.toNat)
      pure (true, addNodeAsOutput op node r.2))
  else if typeName = "Gemm" then
    (do
      let i0 ← inputAt op 0
      let rA ← getOrCreateVariableByName st i0
      let i1 ← inputAt op 1
      let rB ← getOrCreateVariableByName rA.2 i1
      let i2 ← inputAt op 2
      let rC ← getOrCreateVariableByName rB.2 i2
      let broadcastC ← getBroadcast rC.2.opsetVersion dict
      let transA ← if hasKey dict "transA" then
          (do
            let i ← loadInt "transA" (findAssoc dict "transA")
            pure (i != 0))
        else pure false
      let transB ← if hasKey dict "transB" then
          (do
            let i ← loadInt "transB" (findAssoc dict "transB")
            pure (i != 0))
        else pure false
      let A := if transA then IRNode.transpose rA.1 [1, 0] else rA.1
      let B := if transB then IRNode.transpose rB.1 [1, 0] else rB.1
      let mul := IRNode.matMul A B
      let C := if broadcastC then
          IRNode.broadcast rC.1 (IRNode.dims mul)
            (((IRNode.dims mul).length : Int) - ((IRNode.dims rC.1).length : Int))
        else rC.1
      let node := IRNode.add mul C
      pure (true, addNodeAsOutput op node rC.2))
  else if typeName = "Transpose" then
    (do
      let i0 ← inputAt op 0
      let r1 ← getOrCreateVariableByName st i0
      let perm ← getShape "perm" (findAssoc dict "perm")
      pure (true, addNodeAsOutput op (IRNode.transpose r1.1 perm) r1.2))
  else .ok (false, st)

/-- ONNXModelLoader::loadOperator: first offers the node to the
common-operator loader of the parent class (a collaborator outside this
source file, passed in as a function: none means not recognized, some st
means handled with resulting state st), then runs the ONNX-specific
dispatch. -/
def loadOperator (tc : NodeProto → LoaderState → Option LoaderState) (st : LoaderState)
    (op : NodeProto) : Except LoadError (Bool × LoaderState) :=
  match tc op st with
  | some st2 => .ok (true, st2)
  | none => loadOperatorONNX st op

/-! ## The load pipeline -/

/-- Result of ONNXModelLoader::loadNetwork: either every node lowered,
or an unrecognized operator stopped the iteration (the false return,
turned into a structured failure naming operator type and instance
name). -/
inductive NetResult where
  | done (st : LoaderState)
  | unsupported (opType : String) (opName : String)

/-- ONNXModelLoader::loadNetwork: lowers the nodes in declaration order
and stops at the first unrecognized operator. -/
def loadNetwork (tc : NodeProto → LoaderState → Option LoaderState) (st : LoaderState) :
    List NodeProto → Except LoadError NetResult
  | [] => .ok (.done st)
  | op :: rest =>
    match loadOperator tc st op with
    | .ok (true, st2) => loadNetwork tc st2 rest
    | .ok (false, _) => .ok (.unsupported op.op_type (loadOperatorName op))
    | .error e => .error e

/-- ONNXModelLoader::loadInitializers: materializes every initializer
record and stores it in the tensor table under the record name,
unconditionally replacing any entry already there. -/
def loadInitializers (st : LoaderState) : List TensorProto → Except LoadError LoaderState
  | [] => .ok st
  | tp :: rest =>
    match loadTensor tp with
    | .ok T =>
      loadInitializers ⟨st.opsetVersion, updAssoc st.tensors tp.name T, st.nodeByName⟩ rest
    | .error e => .error e

/-- ONNXModelLoader::loadInputs: creates a shape-only tensor for every
declared graph input and stores it under the input name. -/
def loadInputs (st : LoaderState) : List ValueInfoProto → Except LoadError LoaderState
  | [] => .ok st
  | vi :: rest =>
    match loadShape vi with
    | .ok T => loadInputs ⟨st.opsetVersion, updAssoc st.tensors vi.name T, st.nodeByName⟩ rest
    | .error e => .error e

/-- Bind each declared output name to a terminal save of the IR value of
that name; an unresolved name is fatal. -/
def bindOutputs (st : LoaderState) : List String → Except LoadError (List (String × IRNode))
  | [] => .ok []
  | o :: rest =>
    match findAssoc st.nodeByName o with
    | none => .error (.UnknownName o)
    | some r =>
      match bindOutputs st rest with
      | .ok l => .ok ((o, IRNode.save ("save_" ++ o) r) :: l)
      | .error e => .error e

/-- ONNXModelLoader::setOutputNodes: requires at least one declared
output, then binds each one. -/
def setOutputNodes (st : LoaderState) (outs : List String) :
    Except LoadError (List (String × IRNode)) :=
  if outs.isEmpty then .error (.ShapeInvariantViolation "Network needs external outputs defined")
  else bindOutputs st outs

/-- Modelled from the spec: the parent-class constructor seeds the
tensor table with the caller-supplied pre-bound name/tensor pairs before
anything else runs. -/
def initState (v : Int) (prebound : List (String × Tensor)) : LoaderState :=
  ⟨v, prebound.foldl (fun m p => updAssoc m p.1 p.2) [], []⟩

/-- Outcome of the file-based constructor: the resolved opset version,
the terminal save bindings, and the failure recorded when the node
iteration stopped at an unsupported operator (in which case no outputs
were bound). -/
structure LoadOutcome where
  opsetVersion : Int
  outputs : List (String × IRNode)
  err : Option LoadError

/-- The file-based constructor ONNXModelLoader::ONNXModelLoader(file,
names, tensors, F): parse and version-check, seed the table with the
caller pre-bound tensors, load the initializers, lower the nodes in
order, and bind the outputs only when every node lowered. A
process-terminating assertion anywhere is a top-level error. -/
def ONNXModelLoaderFromFile (tc : NodeProto → LoaderState → Option LoaderState)
    (prebound : List (String × Tensor)) (MP : ModelProto) : Except LoadError LoadOutcome :=
  match setVersion MP with
  | .error e => .error e
  | .ok v =>
    match loadInitializers (initState v prebound) MP.graph.initializer with
    | .error e => .error e
    | .ok st1 =>
      match loadNetwork tc st1 MP.graph.node with
      | .error e => .error e
      | .ok (.done st2) =>
        match setOutputNodes st2 MP.graph.output with
        | .error e => .error e
        | .ok outs => .ok ⟨v, outs, none⟩
      | .ok (.unsupported ty nm) => .ok ⟨v, [], some (.UnsupportedOperator ty nm)⟩

/-- The embedding-style entry point ONNXModelLoader::parse(bytes, size,
F): version-check, seed the table from the declared inputs (no
initializers), and lower the nodes; an unrecognized operator yields the
null result, and no outputs are bound in this entry style. -/
def ONNXModelLoaderParse (tc : NodeProto → LoaderState → Option LoaderState)
    (MP : ModelProto) : Except LoadError (Option LoaderState) :=
  match setVersion MP with
  | .error e => .error e
  | .ok v =>
    match loadInputs ⟨v, [], []⟩ MP.graph.input with
    | .error e => .error e
    | .ok st1 =>
      match loadNetwork tc st1 MP.graph.node with
      | .error e => .error e
      | .ok (.done st2) => .ok (some st2)
      | .ok (.unsupported _ _) => .ok none

/-! ## Concrete instances used by the claims -/

/-- A common-operator loader that recognizes nothing: every node is left
to the ONNX-specific dispatch. -/
def noCommon : NodeProto → LoaderState → Option LoaderState := fun _ _ => none

/-- Channel-first input tensor of shape 1 x 3 x 32 x 32. -/
def xTensor : Tensor := ⟨.FloatTy, [1, 3, 32, 32], .floats (List.replicate 3072 0)⟩

/-- Conv weight tensor of shape 16 x 3 x 3 x 3 in the KCRS layout of the
external format. -/
def wTensor : Tensor := ⟨.FloatTy, [16, 3, 3, 3], .floats (List.replicate 432 0)⟩

/-- Loader state holding the Conv input and weight tensors. -/
def convState : LoaderState := ⟨7, [("X", xTensor), ("W", wTensor)], []⟩

/-- A Conv node with no strides, kernel_shape or pads attributes. -/
def convOp : NodeProto := ⟨"Conv", "conv1", ["X", "W"], ["Y"], []⟩

/-- Channel-first pooling input of spatial extent 7 (shape 1 x 2 x 7 x 7). -/
def poolTensor : Tensor := ⟨.FloatTy, [1, 2, 7, 7], .floats (List.replicate 98 0)⟩

/-- Loader state holding the pooling input tensor. -/
def poolState : LoaderState := ⟨7, [("P", poolTensor)], []⟩

/-- A MaxPool node carrying both a kernel_shape attribute with head k and
a global_pooling flag. -/
def maxPoolOp (k : Nat) (ks : List Nat) : NodeProto :=
  ⟨"MaxPool", "pool1", ["P"], ["Q"],
    [⟨"kernel_shape", .ints (k :: ks)⟩, ⟨"global_pooling", .int 1⟩]⟩

/-- A MaxPool node carrying a global_pooling flag but no kernel_shape
attribute. -/
def maxPoolNoKernel (g : Int) : NodeProto :=
  ⟨"MaxPool", "pool2", ["P"], ["Q"], [⟨"global_pooling", .int g⟩]⟩

/-- A caller pre-bound tensor for the name X. -/
def preboundX : Tensor := ⟨.FloatTy, [1], .floats [7]⟩

/-- An initializer record that also defines the name X, with a different
value. -/
def initX : TensorProto := ⟨"X", [1], 1, [5], [], none⟩

/-- Loader state in which the caller pre-bound X. -/
def preboundStateX : LoaderState := ⟨7, [("X", preboundX)], []⟩

/-- The eight float values of the documented Constant example. -/
def exampleVals : List ℚ :=
  [-0.1615397, -0.4338357, 0.0916414, -0.0168522, -0.0650264, -0.1317379, 0.0204176,
   -0.1211102]

/-- The documented float32 tensor record with dims = single 8 and eight
explicit float values. -/
def exampleRecord : TensorProto := ⟨"Parameter6", [8], 1, exampleVals, [], none⟩

/-- A Dropout node from X to Y, used in the valid example model. -/
def dropoutNode : NodeProto := ⟨"Dropout", "drop1", ["X"], ["Y"], []⟩

/-- A small fully valid graph: one initializer X, one Dropout node
producing Y, output Y. -/
def exampleGraph : GraphProto := ⟨[dropoutNode], [], [⟨"X", [2], 1, [1, 2], [], none⟩], ["Y"]⟩

/-- A valid model with ir_version 3 and one unnamespaced opset entry
of version 7. -/
def exampleModel7 : ModelProto := ⟨3, [⟨none, 7⟩], exampleGraph⟩

/-- A node whose operator type name Foo is in no lowering table. -/
def fooNode : NodeProto := ⟨"Foo", "foo1", [], ["Z"], []⟩

/-- A model whose only node has the unsupported operator type Foo. -/
def fooModel : ModelProto := ⟨3, [⟨none, 7⟩], ⟨[fooNode], [], [], ["Z"]⟩⟩

/-- A tensor record of element kind int8 (onnx enum value 3), an
element kind the importer does not support. -/
def recInt8 : TensorProto := ⟨"t8", [2], 3, [], [], some [1, 2]⟩

/-- A float32 tensor record with neither an element array nor a raw byte
blob. -/
def recEmptyFloat : TensorProto := ⟨"tf", [2], 1, [], [], none⟩

/-- An int64 tensor record with neither an element array nor a raw byte
blob. -/
def recEmptyInt64 : TensorProto := ⟨"ti", [2], 7, [], [], none⟩

/-! ## Helper lemmas -/

/-- Copying a value list into a freshly allocated buffer of exactly the
same length reproduces the value list. -/
theorem writeSeq_replicate {α : Type} (z : α) (vals : List α) (n : Nat)
    (h : vals.length = n) : writeSeq (List.replicate n z) vals = vals := by
  induction vals generalizing n with
  | nil =>
    subst h
    rfl
  | cons v vs ih =>
    subst h
    simp only [List.length_cons, List.replicate, writeSeq]
    rw [ih vs.length rfl]

/-- After an insert-or-replace update, lookup of the updated key returns
the new value. -/
theorem findAssoc_updAssoc_self {α : Type} (l : List (String × α)) (k : String) (v : α) :
    findAssoc (updAssoc l k v) k = some v := by
  induction l with
  | nil => simp [updAssoc, findAssoc]
  | cons p rest ih =>
    by_cases h : p.1 = k
    · simp [updAssoc, h, findAssoc]
    · simp [updAssoc, h, findAssoc, ih]

/-- A scan over opset imports that are all namespaced leaves the version
at 0. -/
theorem findOpsetVersion_all_namespaced (l : List OpsetImportProto)
    (h : ∀ p, p ∈ l → unnamespaced p = false) : findOpsetVersion l = 0 := by
  induction l with
  | nil => rfl
  | cons p rest ih =>
    have hp := h p (List.mem_cons_self p rest)
    simp only [findOpsetVersion, hp, Bool.false_eq_true, if_false]
    exact ih (fun q hq => h q (List.mem_cons_of_mem p hq))

/-- The scan over opset imports returns the version of the first
unnamespaced entry. -/
theorem findOpsetVersion_first (pre : List OpsetImportProto) (imp : OpsetImportProto)
    (rest : List OpsetImportProto) (hpre : ∀ p, p ∈ pre → unnamespaced p = false)
    (himp : unnamespaced imp = true) :
    findOpsetVersion (pre ++ imp :: rest) = imp.version := by
  induction pre with
  | nil => simp [findOpsetVersion, himp]
  | cons p ps ih =>
    have hp := hpre p (List.mem_cons_self p ps)
    simp only [List.cons_append, findOpsetVersion, hp, Bool.false_eq_true, if_false]
    exact ih (fun q hq => hpre q (List.mem_cons_of_mem p hq))

/-! ## Claim theorems -/

/-- Claim C3: getPads returns an explicit pads attribute verbatim;
otherwise with an auto_pad attribute it returns all-zero padding for the
string VALID and fails for every other string; with neither attribute it
returns all-zero padding. -/
theorem C3_getPads (dict : ArgumentDictionaryTy) :
    (∀ a l, findAssoc dict "pads" = some a → a.value = .ints l → getPads dict = .ok l) ∧
    (findAssoc dict "pads" = none →
      ∀ a s, findAssoc dict "auto_pad" = some a → a.value = .str s →
        ((s = "VALID" → getPads dict = .ok [0, 0, 0, 0]) ∧
         (s ≠ "VALID" →
           getPads dict =
             .error (.UnsupportedAttributeShape "only auto_pad==VALID is supported")))) ∧
    (findAssoc dict "pads" = none → findAssoc dict "auto_pad" = none →
      getPads dict = .ok [0, 0, 0, 0]) := by
  refine ⟨?_, ?_, ?_⟩
  · intro a l ha hv
    simp [getPads, hasKey, ha, getShape, hv]
  · intro hp a s ha hv
    constructor
    · intro hs
      simp [getPads, hasKey, hp, ha, loadStr, hv, hs]
    · intro hs
      simp [getPads, hasKey, hp, ha, loadStr, hv, hs]
  · intro hp hap
    simp [getPads, hasKey, hp, hap]

/-- Witness for C3 at concrete dictionaries: empty, auto_pad VALID,
auto_pad SAME_UPPER, and an explicit pads list. -/
theorem C3_getPads_witness :
    getPads [] = .ok [0, 0, 0, 0] ∧
    getPads [("auto_pad", ⟨"auto_pad", .str "VALID"⟩)] = .ok [0, 0, 0, 0] ∧
    getPads [("auto_pad", ⟨"auto_pad", .str "SAME_UPPER"⟩)] =
      .error (.UnsupportedAttributeShape "only auto_pad==VALID is supported") ∧
    getPads [("pads", ⟨"pads", .ints [1, 2, 3, 4]⟩)] = .ok [1, 2, 3, 4] := by
  refine ⟨?_, ?_, ?_, ?_⟩
  · exact (C3_getPads []).2.2 rfl rfl
  · exact ((C3_getPads [("auto_pad", ⟨"auto_pad", .str "VALID"⟩)]).2.1 rfl
      ⟨"auto_pad", .str "VALID"⟩ "VALID" rfl rfl).1 rfl
  · exact ((C3_getPads [("auto_pad", ⟨"auto_pad", .str "SAME_UPPER"⟩)]).2.1 rfl
      ⟨"auto_pad", .str "SAME_UPPER"⟩ "SAME_UPPER" rfl rfl).2 (by decide)
  · exact (C3_getPads [("pads", ⟨"pads", .ints [1, 2, 3, 4]⟩)]).1
      ⟨"pads", .ints [1, 2, 3, 4]⟩ [1, 2, 3, 4] rfl rfl

/-- Claim C4: for opset version above 6 getBroadcast is true regardless
of the dictionary; for version at most 6 it is true exactly when an
explicit boolean-valued broadcast attribute is present and truthy, and
false when the attribute is absent. -/
theorem C4_getBroadcast (v : Int) (dict : ArgumentDictionaryTy) :
    (6 < v → getBroadcast v dict = .ok true) ∧
    (v ≤ 6 → findAssoc dict "broadcast" = none → getBroadcast v dict = .ok false) ∧
    (v ≤ 6 → ∀ a b, findAssoc dict "broadcast" = some a → a.value = .int b →
      (b = 0 ∨ b = 1) → (getBroadcast v dict = .ok true ↔ b ≠ 0)) := by
  refine ⟨?_, ?_, ?_⟩
  · intro h
    simp [getBroadcast, h]
  · intro h hn
    simp [getBroadcast, hasKey, hn, not_lt.mpr h]
  · intro h a b ha hv hb
    have h6 : ¬ (6 < v) := not_lt.mpr h
    rcases hb with hb | hb
    · subst hb
      simp [getBroadcast, h6, hasKey, ha, loadInt, hv]
    · subst hb
      simp [getBroadcast, h6, hasKey, ha, loadInt, hv]

/-- Witness for C4: version 7 with an explicit broadcast 0 still
broadcasts; version 6 without the attribute does not; version 6 with
broadcast 1 does. -/
theorem C4_getBroadcast_witness :
    getBroadcast 7 [("broadcast", ⟨"broadcast", .int 0⟩)] = .ok true ∧
    getBroadcast 6 [] = .ok false ∧
    getBroadcast 6 [("broadcast", ⟨"broadcast", .int 1⟩)] = .ok true := by
  refine ⟨?_, ?_, ?_⟩
  · exact (C4_getBroadcast 7 _).1 (by decide)
  · exact (C4_getBroadcast 6 []).2.1 (by decide) rfl
  · exact ((C4_getBroadcast 6 [("broadcast", ⟨"broadcast", .int 1⟩)]).2.2 (by decide)
      ⟨"broadcast", .int 1⟩ 1 rfl rfl (Or.inr rfl)).mpr (by decide)

/-- Claim C7: a float32 tensor record with a non-empty explicit element
array materializes to a buffer shaped per the record dims whose elements
equal the record elements in the same order. -/
theorem C7_float_data_roundtrip (t : TensorProto) (hk : t.data_type = 1)
    (hne : t.float_data ≠ []) (hlen : t.float_data.length = prodDims t.dims) :
    loadTensor t = .ok ⟨.FloatTy, t.dims, .floats t.float_data⟩ := by
  have hpos : 0 < t.float_data.length := List.length_pos.mpr hne
  simp [loadTensor, hk, hpos, writeSeq_replicate 0 t.float_data (prodDims t.dims) hlen]

/-- Witness for C7: the documented eight-element example record
materializes to exactly its eight values in order. -/
theorem C7_float_data_roundtrip_witness :
    loadTensor exampleRecord = .ok ⟨.FloatTy, [8], .floats exampleVals⟩ :=
  C7_float_data_roundtrip exampleRecord rfl (by simp [exampleRecord, exampleVals]) rfl

/-- Claim C9: materialization fails as unsupported for every element
kind other than float32 and int64, and for float32 or int64 records with
neither a non-empty element array nor a raw byte blob. -/
theorem C9_unsupported_tensor_kinds (t : TensorProto) :
    (t.data_type ≠ 1 → t.data_type ≠ 7 → loadTensor t = .error .UnsupportedTensorKind) ∧
    (t.data_type = 1 → t.float_data = [] → t.raw_data = none →
      loadTensor t = .error .UnsupportedTensorKind) ∧
    (t.data_type = 7 → t.int64_data = [] → t.raw_data = none →
      loadTensor t = .error .UnsupportedTensorKind) := by
  refine ⟨?_, ?_, ?_⟩
  · intro h1 h7
    simp [loadTensor, h1, h7]
  · intro h1 hf hr
    simp [loadTensor, h1, hf, hr]
  · intro h7 hi hr
    have h1 : t.data_type ≠ 1 := by
      rw [h7]
      decide
    simp [loadTensor, h1, h7, hi, hr]

/-- Witness for C9: an int8 record, an empty float32 record and an empty
int64 record all fail as unsupported. -/
theorem C9_unsupported_tensor_kinds_witness :
    loadTensor recInt8 = .error .UnsupportedTensorKind ∧
    loadTensor recEmptyFloat = .error .UnsupportedTensorKind ∧
    loadTensor recEmptyInt64 = .error .UnsupportedTensorKind :=
  ⟨(C9_unsupported_tensor_kinds recInt8).1 (by decide) (by decide),
   (C9_unsupported_tensor_kinds recEmptyFloat).2.1 rfl rfl rfl,
   (C9_unsupported_tensor_kinds recEmptyInt64).2.2 rfl rfl rfl⟩

/-- Node iteration over a list split: once a prefix lowers successfully,
iterating the whole list continues from the state the prefix produced. -/
theorem loadNetwork_append_done (tc : NodeProto → LoaderState → Option LoaderState)
    (pre : List NodeProto) : ∀ (st stp : LoaderState) (ys : List NodeProto),
    loadNetwork tc st pre = .ok (.done stp) →
    loadNetwork tc st (pre ++ ys) = loadNetwork tc stp ys := by
  induction pre with
  | nil =>
    intro st stp ys h
    have h2 : Except.ok (ε := LoadError) (NetResult.done st) = .ok (.done stp) := h
    injection h2 with h3
    injection h3 with h4
    subst h4
    rw [List.nil_append]
  | cons op rest ih =>
    intro st stp ys h
    cases hop : loadOperator tc st op with
    | ok p =>
      obtain ⟨b, st2⟩ := p
      cases b
      · simp only [List.cons_append, loadNetwork, hop] at h
        exact absurd h (by simp)
      · simp only [List.cons_append, loadNetwork, hop] at h ⊢
        exact ih st2 stp ys h
    | error e =>
      simp only [List.cons_append, loadNetwork, hop] at h
      exact absurd h (by simp)

/-- A node whose operator type is in no branch of the ONNX-specific
dispatch is reported unrecognized with the state unchanged. -/
theorem loadOperatorONNX_unrecognized (st : LoaderState) (op : NodeProto)
    (h : ¬ op.op_type ∈ supportedONNXOps) : loadOperatorONNX st op = .ok (false, st) := by
  simp only [supportedONNXOps, List.mem_cons, List.not_mem_nil, or_false, not_or] at h
  obtain ⟨h1, h2, h3, h4, h5, h6, h7, h8, h9, h10, h11, h12⟩ := h
  simp [loadOperatorONNX, h1, h2, h3, h4, h5, h6, h7, h8, h9, h10, h11, h12]

/-- Claim C6: version resolution takes the first unnamespaced opset
entry; it fails for ir_version below 3 and when no unnamespaced entry
exists; and the valid example model with ir_version 3 and a single
unnamespaced opset import of version 7 loads fully with opset version
7. -/
theorem C6_version_resolution (MP : ModelProto) :
    (MP.ir_version < 3 → setVersion MP = .error .VersionError) ∧
    (3 ≤ MP.ir_version → (∀ p, p ∈ MP.opset_import → unnamespaced p = false) →
      setVersion MP = .error .VersionError) ∧
    (3 ≤ MP.ir_version → ∀ pre imp rest, MP.opset_import = pre ++ imp :: rest →
      (∀ p, p ∈ pre → unnamespaced p = false) → unnamespaced imp = true → 0 < imp.version →
      setVersion MP = .ok imp.version) ∧
    (∃ oc, ONNXModelLoaderFromFile noCommon [] exampleModel7 = .ok oc ∧
      oc.opsetVersion = 7 ∧ oc.err = none ∧ oc.outputs.length = 1) := by
  refine ⟨?_, ?_, ?_, ?_⟩
  · intro h
    simp [setVersion, h]
  · intro h hall
    simp [setVersion, not_lt.mpr h, findOpsetVersion_all_namespaced MP.opset_import hall]
  · intro h pre imp rest hsplit hpre himp hv
    have hf := findOpsetVersion_first pre imp rest hpre himp
    simp [setVersion, not_lt.mpr h, hsplit, hf, hv]
  · exact ⟨_, rfl, rfl, rfl, rfl⟩

/-- Witness for C6: ir_version 2 fails, a model whose only opset import
is namespaced fails, and the example model resolves opset version 7. -/
theorem C6_version_resolution_witness :
    setVersion ⟨2, [⟨none, 7⟩], exampleGraph⟩ = .error .VersionError ∧
    setVersion ⟨3, [⟨some "ai.onnx.ml", 8⟩], exampleGraph⟩ = .error .VersionError ∧
    setVersion exampleModel7 = .ok 7 := by
  refine ⟨?_, ?_, ?_⟩
  · exact (C6_version_resolution ⟨2, [⟨none, 7⟩], exampleGraph⟩).1 (by decide)
  · exact (C6_version_resolution ⟨3, [⟨some "ai.onnx.ml", 8⟩], exampleGraph⟩).2.1 (by decide)
      (by
        intro p hp
        rw [List.mem_singleton] at hp
        subst hp
        rfl)
  · exact (C6_version_resolution exampleModel7).2.2.1 (by decide) [] ⟨none, 7⟩ [] rfl
      (by
        intro p hp
        exact absurd hp (List.not_mem_nil p))
      rfl (by decide)

/-- Counterexample to claim C2: the name X is pre-bound in the tensor
table, yet loading an initializer list that also defines X replaces the
pre-bound tensor. -/
theorem C2_counterexample :
    ∃ st1, loadInitializers preboundStateX [initX] = .ok st1 ∧
      findAssoc st1.tensors "X" ≠ some preboundX := by
  refine ⟨_, rfl, ?_⟩
  decide

/-- Claim C2 as amended: lowering a Constant node whose output name is
already present leaves the table unchanged (caller value wins there),
but an initializer with an already-present name unconditionally replaces
the entry with the freshly materialized tensor (the initializer wins
over a caller pre-binding). -/
theorem C2_amended (tc : NodeProto → LoaderState → Option LoaderState) (st st0 : LoaderState)
    (op : NodeProto) (nm : String) (outs : List String) (t T : Tensor) (tp : TensorProto) :
    (tc op st = none → op.op_type = "Constant" → op.output = nm :: outs →
      findAssoc st.tensors nm = some t → loadOperator tc st op = .ok (true, st)) ∧
    (loadTensor tp = .ok T → ∀ st1, loadInitializers st0 [tp] = .ok st1 →
      findAssoc st1.tensors tp.name = some T) := by
  constructor
  · intro hc hty hout hpre
    simp only [loadOperator, hc]
    simp [loadOperatorONNX, hty, hout, hasKey, hpre]
  · intro hload st1 h1
    simp only [loadInitializers, hload] at h1
    cases h1
    exact findAssoc_updAssoc_self _ _ _

/-- Witness for the amended C2: a Constant node for the pre-bound name X
is a no-op, while the initializer for X leaves the table holding the
materialized initializer value 5 rather than the pre-bound value 7. -/
theorem C2_amended_witness :
    loadOperator noCommon preboundStateX ⟨"Constant", "c1", [], ["X"], []⟩ =
      .ok (true, preboundStateX) ∧
    (∃ st1, loadInitializers preboundStateX [initX] = .ok st1 ∧
      findAssoc st1.tensors "X" = some ⟨.FloatTy, [1], .floats [5]⟩) := by
  constructor
  · exact (C2_amended noCommon preboundStateX preboundStateX ⟨"Constant", "c1", [], ["X"], []⟩
      "X" [] preboundX preboundX initX).1 rfl rfl rfl rfl
  · refine ⟨_, rfl, ?_⟩
    exact (C2_amended noCommon preboundStateX preboundStateX ⟨"Constant", "c1", [], ["X"], []⟩
      "X" [] preboundX ⟨.FloatTy, [1], .floats [5]⟩ initX).2 rfl _ rfl

/-- Claim C1: lowering the Conv node with channel-first input of shape
1 x 3 x 32 x 32, weight of shape 16 x 3 x 3 x 3 and no strides,
kernel_shape or pads attributes infers kernel 3 from the square spatial
dimension of the transposed weight, stride 1, all-zero pads, output
depth 16 from the leading dimension of the transposed weight, an
internal channel-last output of shape 1 x 30 x 30 x 16, and binds a
final channel-first output of shape 1 x 16 x 30 x 30, bracketed by the
channel-first-to-channel-last transpose on the input and the inverse
transpose on the output. -/
theorem C1_conv_shape_inference :
    ∃ st1, loadOperator noCommon convState convOp = .ok (true, st1) ∧
      ∃ N, findAssoc st1.nodeByName "Y" = some N ∧
        ∃ filter bias,
          N = .transpose
            (.conv (.transpose (.variableNode "X" xTensor) NCHW2NHWC) filter bias
              [1, 30, 30, 16] 3 1 [0, 0, 0, 0] 1) NHWC2NCHW ∧
          IRNode.dims N = [1, 16, 30, 30] ∧
          filter = .variableNode "conv.filter" (transposeTensor wTensor NCHW2NHWC) ∧
          (transposeTensor wTensor NCHW2NHWC).dims = [16, 3, 3, 3] := by
  exact ⟨_, rfl, _, rfl, _, _, rfl, rfl, rfl, rfl⟩

/-- Claim C8: a MaxPool node carrying a global_pooling flag pools with
kernel equal to the spatial extent of the input (7 here), whatever value
the kernel_shape attribute supplies; stride defaults to 1 and pads
follow the shared rule. -/
theorem C8_global_pooling_kernel (k : Nat) (ks : List Nat) :
    ∃ st1, loadOperator noCommon poolState (maxPoolOp k ks) = .ok (true, st1) ∧
      findAssoc st1.nodeByName "Q" =
        some (.transpose
          (.poolMax (.transpose (.variableNode "P" poolTensor) NCHW2NHWC) 7 1 [0, 0, 0, 0])
          NHWC2NCHW) := by
  exact ⟨_, rfl, rfl⟩

/-- Claim C10: the pooling path reads the kernel_shape attribute before
consulting global_pooling, so a MaxPool node carrying global_pooling but
no kernel_shape hits the null attribute access instead of taking the
global-pooling path: kernel_shape is effectively required. -/
theorem C10_kernel_shape_required (g : Int) :
    loadOperator noCommon poolState (maxPoolNoKernel g) =
      .error (.NullAttribute "kernel_shape") := by
  rfl

/-- Claim C5: when the nodes before it lower successfully, a node whose
operator type is in no lowering table stops the iteration, the load
records an UnsupportedOperator failure naming that operator type and the
instance name, and no graph outputs are bound, whatever nodes follow. -/
theorem C5_unsupported_operator (tc : NodeProto → LoaderState → Option LoaderState)
    (prebound : List (String × Tensor)) (MP : ModelProto) (v : Int) (st1 stp : LoaderState)
    (pre rest : List NodeProto) (op : NodeProto)
    (hv : setVersion MP = .ok v)
    (hinit : loadInitializers (initState v prebound) MP.graph.initializer = .ok st1)
    (hnodes : MP.graph.node = pre ++ op :: rest)
    (hpre : loadNetwork tc st1 pre = .ok (.done stp))
    (hcommon : tc op stp = none)
    (hunsup : ¬ op.op_type ∈ supportedONNXOps) :
    ONNXModelLoaderFromFile tc prebound MP =
      .ok ⟨v, [], some (.UnsupportedOperator op.op_type (loadOperatorName op))⟩ := by
  have hop : loadOperator tc stp op = .ok (false, stp) := by
    simp only [loadOperator, hcommon]
    exact loadOperatorONNX_unrecognized stp op hunsup
  have hnet : loadNetwork tc st1 MP.graph.node =
      .ok (.unsupported op.op_type (loadOperatorName op)) := by
    rw [hnodes, loadNetwork_append_done tc pre st1 stp (op :: rest) hpre]
    simp only [loadNetwork, hop]
  simp only [ONNXModelLoaderFromFile, hv, hinit, hnet]

/-- Witness for C5: the model whose only node has operator type Foo
loads to an outcome with no outputs and an UnsupportedOperator failure
naming Foo and the instance name foo1. -/
theorem C5_unsupported_operator_witness :
    ONNXModelLoaderFromFile noCommon [] fooModel =
      .ok ⟨7, [], some (.UnsupportedOperator "Foo" "foo1")⟩ :=
  C5_unsupported_operator noCommon [] fooModel 7 (initState 7 []) (initState 7 []) [] []
    fooNode rfl rfl rfl rfl rfl (by decide)

end Glow
